import Mathlib

/-!
Shallow embedding of the Fast-API-Base repository's file-upload validation
pipeline (`app/routes/router.py`), its Gemini AI route guards
(`app/routes/ai_routes.py`) and the Gemini gateway wrapper
(`app/routes/gemini_api.py`), together with proofs settling the frozen
claims about the natural-language specification.

Conventions of the embedding:
* Python `bytes` payloads are `List Nat` (one Nat per byte value).
* Python floats that only ever hold exactly-representable values in the
  claims at issue are modelled as `Rat`; Python's `round(x, 2)` is
  modelled as exact round-half-to-even at two decimal places.
* A Python `try/except` block is an `Except` computation together with an
  explicit handler chain mirroring the `except` clauses in source order.
* External libraries (PIL, zipfile's central-directory parser, csv.reader,
  json/xml parsers, the remote Gemini API) are passed in as already-parsed
  values or as function/outcome parameters; everything the repository's own
  code does with those results is embedded directly.
-/

namespace FastApiBase

/-- Python `bytes`: a list of byte values. -/
abbrev Bytes := List Nat

/-- Python exceptions that the router's code can raise or handle.
`httpException s d` is `fastapi.HTTPException(status_code=s, detail=d)`;
the other constructors are the library exceptions named in the source's
`except` clauses.  `jsonDecodeError`/`parseError` carry the parser message. -/
inductive PyExc where
  | httpException (statusCode : Nat) (detail : String)
  | badZipFile
  | unicodeDecodeError
  | jsonDecodeError (msg : String)
  | xmlParseError (msg : String)
  deriving Repr, DecidableEq

/-- `str(e)` for the exceptions above.  Starlette's `HTTPException.__str__`
returns `f"{self.status_code}: {self.detail}"`; the library exceptions'
messages are only ever observed via the blanket `except Exception` handler,
and for those we reproduce the message text the source would interpolate. -/
def pyStr : PyExc → String
  | .httpException s d => toString s ++ ": " ++ d
  | .badZipFile => "File is not a zip file"
  | .unicodeDecodeError => "invalid utf-8 byte"
  | .jsonDecodeError m => m
  | .xmlParseError m => m

/-- The HTTP-level error an endpoint ends up responding with
(after all `except` clauses have run). -/
structure HTTPError where
  statusCode : Nat
  detail : String
  deriving Repr, DecidableEq

/-- `MAX_FILE_SIZE` from `router.py`: maximum payload bytes per category. -/
def MAX_FILE_SIZE : List (String × Nat) :=
  [("image", 10 * 1024 * 1024),
   ("video", 100 * 1024 * 1024),
   ("zip", 50 * 1024 * 1024),
   ("pdf", 20 * 1024 * 1024),
   ("excel", 15 * 1024 * 1024),
   ("csv", 10 * 1024 * 1024),
   ("word", 15 * 1024 * 1024),
   ("audio", 30 * 1024 * 1024),
   ("json", 5 * 1024 * 1024),
   ("xml", 5 * 1024 * 1024)]

/-- `ALLOWED_EXTENSIONS` from `router.py`: accepted filename suffixes per
category, in Python dict insertion order (which the batch endpoint's
resolution loop iterates in). -/
def ALLOWED_EXTENSIONS : List (String × List String) :=
  [("image", [".jpg", ".jpeg", ".png", ".gif"]),
   ("video", [".mp4", ".avi", ".mov", ".mkv"]),
   ("zip", [".zip"]),
   ("pdf", [".pdf"]),
   ("excel", [".xlsx", ".xls"]),
   ("csv", [".csv"]),
   ("word", [".docx", ".doc"]),
   ("audio", [".mp3", ".wav", ".ogg"]),
   ("json", [".json"]),
   ("xml", [".xml"])]

/-- Index of the last occurrence of `c` in `cs`, if any
(Python `str.rfind`). -/
def rlast (cs : List Char) (c : Char) : Option Nat :=
  (List.range cs.length).foldl
    (fun acc i => if cs.get? i = some c then some i else acc) none

/-- `os.path.splitext(filename)[1]` (posix rules): the suffix from the last
dot on, provided the dot lies strictly after the basename start and at
least one character of the basename before it is not itself a dot
(so ".bashrc" has extension ""). -/
def splitextExt (filename : String) : String :=
  let cs := filename.data
  let sepIndex : Int := match rlast cs '/' with
    | some i => (i : Int)
    | none => -1
  match rlast cs '.' with
  | none => ""
  | some dotIndex =>
    if (dotIndex : Int) > sepIndex then
      let base := (cs.drop (sepIndex + 1).toNat).take (dotIndex - (sepIndex + 1).toNat)
      if base.any (fun c => c ≠ '.') then String.mk (cs.drop dotIndex) else ""
    else ""

/-- Python `str.lower()` restricted to ASCII (all extensions in the
registry are ASCII). -/
def pyLower (s : String) : String := String.mk (s.data.map Char.toLower)

/-- `validate_file_extension` from `router.py`:
`os.path.splitext(filename)[1].lower() in ALLOWED_EXTENSIONS.get(file_type, [])`. -/
def validate_file_extension (filename : String) (fileType : String) : Bool :=
  (ALLOWED_EXTENSIONS.lookup fileType).getD [] |>.contains (pyLower (splitextExt filename))

/-- `validate_file_size` from `router.py`:
`len(file_content) <= MAX_FILE_SIZE.get(file_type, 5 * 1024 * 1024)`. -/
def validate_file_size (fileContent : Bytes) (fileType : String) : Bool :=
  fileContent.length ≤ (MAX_FILE_SIZE.lookup fileType).getD (5 * 1024 * 1024)

/-- Round-half-to-even to an integer (the rounding CPython `round` uses). -/
def halfEven (q : Rat) : Int :=
  let f := ⌊q⌋
  let r := q - f
  if r < 1/2 then f
  else if 1/2 < r then f + 1
  else if f % 2 = 0 then f else f + 1

/-- Python `round(q, 2)` on values modelled as rationals. -/
def pyRound2 (q : Rat) : Rat := (halfEven (q * 100) : Rat) / 100

/-- `round(len(contents) / (1024 * 1024), 2)`, the `size_mb` field every
descriptor carries. -/
def sizeMb (contents : Bytes) : Rat := pyRound2 ((contents.length : Rat) / (1024 * 1024))

/-- `f"{MAX_FILE_SIZE[t] / (1024*1024)}MB"` numeric part: every registered
limit is a whole number of MiB, and Python formats such a float as `"n.0"`. -/
def maxSizeMbStr (fileType : String) : String :=
  toString ((MAX_FILE_SIZE.lookup fileType).getD 0 / (1024 * 1024)) ++ ".0"

/-- The `try ... except` shape shared by the upload endpoints: run the body;
on any exception apply the handler chain (the handler already encodes the
source-order `except` clauses of the given endpoint). -/
def pyTry {α : Type} (body : Except PyExc α) (handler : PyExc → HTTPError) :
    Except HTTPError α :=
  match body with
  | .ok v => .ok v
  | .error e => .error (handler e)

/-! ### Single-file upload endpoints (`router.py`)

Each endpoint's `try` body is an `Except PyExc _` computation; the
endpoint-specific handler chain reproduces its `except` clauses in source
order, ending with the blanket
`except Exception as e: raise HTTPException(500, f"... {str(e)}")`.
Note that `fastapi.HTTPException` derives from `Exception`, so an
`HTTPException` raised inside the `try` block is itself caught by the
blanket clause and re-wrapped as a 500. -/

/-- Descriptor for `/files/upload/video` (the body of `video_info`). -/
structure VideoOut where
  filename : String
  content_type : Option String
  size_bytes : Nat
  size_mb : Rat
  deriving Repr, DecidableEq

/-- `upload_video` from `router.py`: extension gate, size gate, then the
descriptor; its only `except` clause is the blanket `except Exception`. -/
def upload_video (filename : String) (contentType : Option String)
    (contents : Bytes) : Except HTTPError VideoOut :=
  pyTry
    (do
      if validate_file_extension filename "video" = false then
        throw (PyExc.httpException 400
          ("Formato no permitido. Use: " ++
            String.intercalate ", " ((ALLOWED_EXTENSIONS.lookup "video").getD [])))
      if validate_file_size contents "video" = false then
        throw (PyExc.httpException 413
          ("Archivo demasiado grande. Máximo: " ++ maxSizeMbStr "video" ++ "MB"))
      pure { filename := filename, content_type := contentType,
             size_bytes := contents.length, size_mb := sizeMb contents })
    (fun e => ⟨500, "Error al procesar video: " ++ pyStr e⟩)

/-- Descriptor for `/files/upload/pdf` (`pdf_info`). -/
structure PdfOut where
  filename : String
  size_bytes : Nat
  size_mb : Rat
  is_valid : Bool
  deriving Repr, DecidableEq

/-- The four signature bytes `b"%PDF"`. -/
def pdfSignature : Bytes := [37, 80, 68, 70]

/-- `upload_pdf` from `router.py`: extension gate, size gate,
`contents.startswith(b"%PDF")` shallow check, then the descriptor with
`is_valid: True`; blanket `except Exception` only. -/
def upload_pdf (filename : String) (contents : Bytes) : Except HTTPError PdfOut :=
  pyTry
    (do
      if validate_file_extension filename "pdf" = false then
        throw (PyExc.httpException 400 "Solo se permiten archivos .pdf")
      if validate_file_size contents "pdf" = false then
        throw (PyExc.httpException 413
          ("Archivo demasiado grande. Máximo: " ++ maxSizeMbStr "pdf" ++ "MB"))
      if (pdfSignature.isPrefixOf contents) = false then
        throw (PyExc.httpException 400 "El archivo no es un PDF válido")
      pure { filename := filename, size_bytes := contents.length,
             size_mb := sizeMb contents, is_valid := true })
    (fun e => ⟨500, "Error al procesar PDF: " ++ pyStr e⟩)

/-- The fields of `zipfile.ZipInfo` the endpoint reads for one archive
entry (the zip central directory is parsed by the external library). -/
structure ZipInfoEntry where
  filename : String
  file_size : Nat
  compress_size : Nat
  deriving Repr, DecidableEq

/-- The per-entry record `upload_zip` appends to `file_list`. -/
structure ZipEntryOut where
  filename : String
  size_bytes : Nat
  compressed_size : Nat
  compression_ratio : Rat
  deriving Repr, DecidableEq

/-- One iteration of `upload_zip`'s entry loop:
`compression_ratio` is
`round((1 - compress_size / file_size) * 100, 2) if file_size > 0 else 0`. -/
def zip_entry_out (i : ZipInfoEntry) : ZipEntryOut :=
  { filename := i.filename, size_bytes := i.file_size,
    compressed_size := i.compress_size,
    compression_ratio :=
      if i.file_size > 0 then
        pyRound2 ((1 - (i.compress_size : Rat) / (i.file_size : Rat)) * 100)
      else 0 }

/-- Descriptor for `/files/upload/zip` (`zip_info`). -/
structure ZipOut where
  filename : String
  total_files : Nat
  size_mb : Rat
  files : List ZipEntryOut
  deriving Repr, DecidableEq

/-- `upload_zip` from `router.py`.  `zipParse` is the outcome of
`zipfile.ZipFile(BytesIO(contents))` producing `filelist`
(`.error ()` = `zipfile.BadZipFile`).  Handler chain:
`except zipfile.BadZipFile` then the blanket `except Exception`. -/
def upload_zip (filename : String) (contents : Bytes)
    (zipParse : Except Unit (List ZipInfoEntry)) : Except HTTPError ZipOut :=
  pyTry
    (do
      if validate_file_extension filename "zip" = false then
        throw (PyExc.httpException 400 "Solo se permiten archivos .zip")
      if validate_file_size contents "zip" = false then
        throw (PyExc.httpException 413
          ("Archivo demasiado grande. Máximo: " ++ maxSizeMbStr "zip" ++ "MB"))
      let entries ← match zipParse with
        | .ok es => pure es
        | .error _ => throw PyExc.badZipFile
      let fileList := entries.map zip_entry_out
      pure { filename := filename, total_files := fileList.length,
             size_mb := sizeMb contents, files := fileList })
    (fun e => match e with
      | .badZipFile => ⟨400, "Archivo ZIP corrupto o inválido"⟩
      | _ => ⟨500, "Error al procesar ZIP: " ++ pyStr e⟩)

/-- Whether a character is one of Python's `str.splitlines` line
boundaries. -/
def isLineBreak (c : Char) : Bool :=
  c == '\n' || c == '\r' || c == '\x0b' || c == '\x0c' ||
  c == '\x1c' || c == '\x1d' || c == '\x1e' || c == '\u0085' ||
  c == '\u2028' || c == '\u2029'

/-- Worker for `pySplitlines`: `acc` holds the current line reversed. -/
def splitlinesAux (cs : List Char) (acc : List Char) : List (List Char) :=
  match cs with
  | [] => if acc.isEmpty then [] else [acc.reverse]
  | '\r' :: '\n' :: rest => acc.reverse :: splitlinesAux rest []
  | c :: rest =>
    if isLineBreak c then acc.reverse :: splitlinesAux rest []
    else splitlinesAux rest (c :: acc)

/-- Python `str.splitlines()`: split at line boundaries (treating `\r\n` as
one boundary), with no trailing empty line. -/
def pySplitlines (s : String) : List String :=
  (splitlinesAux s.data []).map String.mk

/-- Descriptor for `/files/upload/csv` (`csv_info`). -/
structure CsvOut where
  filename : String
  size_bytes : Nat
  size_mb : Rat
  total_rows : Nat
  total_columns : Nat
  columns : List String
  preview_rows : List (List String)
  deriving Repr, DecidableEq

/-- `upload_csv` from `router.py`.  `decoded` is the outcome of
`contents.decode('utf-8')` (`none` = `UnicodeDecodeError`); `csvReader`
is the external `csv.reader` applied to the splitlines list, yielding the
parsed rows.  Handler chain: `except UnicodeDecodeError` then the blanket
`except Exception`.  `rows[1:6]` is `(rows.drop 1).take 5`. -/
def upload_csv (csvReader : List String → List (List String))
    (filename : String) (contents : Bytes) (decoded : Option String) :
    Except HTTPError CsvOut :=
  pyTry
    (do
      if validate_file_extension filename "csv" = false then
        throw (PyExc.httpException 400 "Solo se permiten archivos .csv")
      if validate_file_size contents "csv" = false then
        throw (PyExc.httpException 413
          ("Archivo demasiado grande. Máximo: " ++ maxSizeMbStr "csv" ++ "MB"))
      let textContent ← match decoded with
        | some t => pure t
        | none => throw PyExc.unicodeDecodeError
      let rows := csvReader (pySplitlines textContent)
      let headers := if rows.isEmpty then [] else rows.headD []
      pure { filename := filename, size_bytes := contents.length,
             size_mb := sizeMb contents, total_rows := rows.length,
             total_columns := headers.length, columns := headers,
             preview_rows := if rows.length > 1 then (rows.drop 1).take 5 else [] })
    (fun e => match e with
      | .unicodeDecodeError =>
        ⟨400, "El archivo CSV tiene una codificación no válida. Use UTF-8"⟩
      | _ => ⟨500, "Error al procesar CSV: " ++ pyStr e⟩)

/-- A parsed Python JSON value as produced by `json.loads`. -/
inductive PyJson where
  | null
  | bool (b : Bool)
  | num (q : Rat)
  | str (s : String)
  | arr (elems : List PyJson)
  | obj (entries : List (String × PyJson))

/-- `type(json_data).__name__` for a parsed value. -/
def pyTypeName : PyJson → String
  | .null => "NoneType"
  | .bool _ => "bool"
  | .num _ => "float"
  | .str _ => "str"
  | .arr _ => "list"
  | .obj _ => "dict"

/-- Descriptor for `/files/upload/json` (`json_info`): the base fields plus
the type-specific ones (`keys`/`key_count` only for a dict top level,
`array_length` only for a list top level). -/
structure JsonOut where
  filename : String
  size_bytes : Nat
  size_mb : Rat
  data_type : String
  is_valid : Bool
  keys : Option (List String)
  key_count : Option Nat
  array_length : Option Nat

/-- The type-dependent tail of `upload_json`'s descriptor construction:
`if isinstance(json_data, dict): keys, key_count; elif isinstance(json_data,
list): array_length`. -/
def json_type_fields (j : PyJson) : Option (List String) × Option Nat × Option Nat :=
  match j with
  | .obj entries => (some (entries.map Prod.fst), some (entries.map Prod.fst).length, none)
  | .arr elems => (none, none, some elems.length)
  | _ => (none, none, none)

/-- `upload_json` from `router.py`.  `decoded` is `contents.decode('utf-8')`
(`none` = `UnicodeDecodeError`); `parsed` is the outcome of `json.loads`
on the decoded text (`.error msg` = `json.JSONDecodeError`).  The inner
`try/except json.JSONDecodeError` re-raises an `HTTPException(400, ...)`
which — still being inside the outer `try` — falls through to the outer
handler chain: `except UnicodeDecodeError`, then blanket `except Exception`. -/
def upload_json (filename : String) (contents : Bytes) (decoded : Option String)
    (parsed : Except String PyJson) : Except HTTPError JsonOut :=
  pyTry
    (do
      if validate_file_extension filename "json" = false then
        throw (PyExc.httpException 400 "Solo se permiten archivos .json")
      if validate_file_size contents "json" = false then
        throw (PyExc.httpException 413
          ("Archivo demasiado grande. Máximo: " ++ maxSizeMbStr "json" ++ "MB"))
      let _text ← match decoded with
        | some t => pure t
        | none => throw PyExc.unicodeDecodeError
      let jsonData ← match parsed with
        | .ok j => pure j
        | .error msg => throw (PyExc.httpException 400 ("JSON inválido: " ++ msg))
      let fields := json_type_fields jsonData
      pure { filename := filename, size_bytes := contents.length,
             size_mb := sizeMb contents, data_type := pyTypeName jsonData,
             is_valid := true, keys := fields.1, key_count := fields.2.1,
             array_length := fields.2.2 })
    (fun e => match e with
      | .unicodeDecodeError =>
        ⟨400, "El archivo JSON tiene una codificación no válida. Use UTF-8"⟩
      | _ => ⟨500, "Error al procesar JSON: " ++ pyStr e⟩)

/-- A parsed XML element as produced by `xml.etree.ElementTree.fromstring`:
tag, attribute mapping and child elements in document order. -/
inductive XmlElem where
  | mk (tag : String) (attrib : List (String × String)) (children : List XmlElem)

/-- The element's tag. -/
def XmlElem.tag : XmlElem → String
  | .mk t _ _ => t

/-- The element's attribute mapping (`element.attrib`). -/
def XmlElem.attrib : XmlElem → List (String × String)
  | .mk _ a _ => a

/-- The element's children in document order. -/
def XmlElem.children : XmlElem → List XmlElem
  | .mk _ _ cs => cs

mutual

/-- `count_elements` from `upload_xml` in `router.py`:
`count = 1; for child in element: count += count_elements(child)`. -/
def count_elements : XmlElem → Nat
  | .mk _ _ children => 1 + count_elements_children children

/-- The `for child in element` accumulation of `count_elements`. -/
def count_elements_children : List XmlElem → Nat
  | [] => 0
  | c :: cs => count_elements c + count_elements_children cs

end

mutual

/-- The strict pre-order traversal of an element: the node itself, then the
pre-order traversals of its children in document order.  Each node position
of the tree occurs exactly once in this list; it is the specification-side
notion the reported element count is compared against. -/
def preorderNodes : XmlElem → List XmlElem
  | .mk t a cs => .mk t a cs :: preorderForest cs

/-- Pre-order traversal of a forest of elements. -/
def preorderForest : List XmlElem → List XmlElem
  | [] => []
  | c :: cs => preorderNodes c ++ preorderForest cs

end

/-- The number of descendant node positions of an element (every node of
the tree except the root itself). -/
def descendantCount (e : XmlElem) : Nat := (preorderForest e.children).length

/-- Descriptor for `/files/upload/xml` (`xml_info`). -/
structure XmlOut where
  filename : String
  size_bytes : Nat
  size_mb : Rat
  root_tag : String
  total_elements : Nat
  root_attributes : List (String × String)
  is_valid : Bool

/-- `upload_xml` from `router.py`.  `decoded` is `contents.decode('utf-8')`;
`parsed` is the outcome of `ET.fromstring` on the decoded text
(`.error msg` = `ET.ParseError` with its message).  As with JSON, the inner `except ET.ParseError` re-raises
an `HTTPException(400, ...)` inside the outer `try`, so it falls to the
blanket handler; outer chain: `except UnicodeDecodeError`, then
`except Exception`. -/
def upload_xml (filename : String) (contents : Bytes) (decoded : Option String)
    (parsed : Except String XmlElem) : Except HTTPError XmlOut :=
  pyTry
    (do
      if validate_file_extension filename "xml" = false then
        throw (PyExc.httpException 400 "Solo se permiten archivos .xml")
      if validate_file_size contents "xml" = false then
        throw (PyExc.httpException 413
          ("Archivo demasiado grande. Máximo: " ++ maxSizeMbStr "xml" ++ "MB"))
      let _text ← match decoded with
        | some t => pure t
        | none => throw PyExc.unicodeDecodeError
      let root ← match parsed with
        | .ok r => pure r
        | .error msg => throw (PyExc.httpException 400 ("XML inválido: " ++ msg))
      pure { filename := filename, size_bytes := contents.length,
             size_mb := sizeMb contents, root_tag := root.tag,
             total_elements := count_elements root,
             root_attributes := root.attrib, is_valid := true })
    (fun e => match e with
      | .unicodeDecodeError =>
        ⟨400, "El archivo XML tiene una codificación no válida. Use UTF-8"⟩
      | _ => ⟨500, "Error al procesar XML: " ++ pyStr e⟩)

/-! ### Batch upload endpoint (`upload_multiple_files`) -/

/-- One uploaded file of a batch request: declared filename and payload. -/
structure BatchFile where
  filename : String
  contents : Bytes

/-- One element of the batch endpoint's `results` array. -/
inductive ItemResult where
  | ok (filename : String) (file_type : String) (size_mb : Rat)
  | failed (filename : String) (error : String)
  deriving Repr, DecidableEq

/-- The body of `upload_multiple_files`' per-file loop iteration: resolve
the category by scanning `ALLOWED_EXTENSIONS` in insertion order for the
first entry containing the lower-cased extension (`break` on match), emit
an unsupported-type failure if none matches, apply the size gate, emit the
success record otherwise.  The loop body's own `try/except Exception`
cannot fire for this pure computation. -/
def process_batch_file (f : BatchFile) : ItemResult :=
  let ext := pyLower (splitextExt f.filename)
  match ALLOWED_EXTENSIONS.find? (fun p => p.2.contains ext) with
  | none => .failed f.filename "Tipo de archivo no soportado"
  | some (fileType, _) =>
    if validate_file_size f.contents fileType = false then
      .failed f.filename
        ("Archivo demasiado grande. Máximo: " ++ maxSizeMbStr fileType ++ "MB")
    else .ok f.filename fileType (sizeMb f.contents)

/-- `upload_multiple_files` from `router.py`: reject the whole batch with
`HTTPException(400)` when more than 10 files are supplied (this raise is
outside any `try`, so it reaches the client as a genuine 400); otherwise
build `results` by appending exactly one `ItemResult` per file, in order. -/
def upload_multiple_files (files : List BatchFile) :
    Except HTTPError (List ItemResult) :=
  if files.length > 10 then
    .error ⟨400, "Máximo 10 archivos por solicitud"⟩
  else
    .ok (files.foldl (fun results f => results ++ [process_batch_file f]) [])

/-! ### Gemini gateway (`gemini_api.py`)

Remote interactions (`generate_content`, `send_message`, `embed_content`,
plus reading `response.text`) are modelled as `Except String String`
outcomes: `.error msg` is any exception the library/remote raises with
`str(e) = msg`, `.ok text` is a reply text.  Every `GeminiAPI` method whose
body is wrapped in `try/except Exception` is embedded via `try_except`. -/

/-- `GEMINI_MODELS` from `gemini_api.py`. -/
def GEMINI_MODELS : List (String × String) :=
  [("pro", "gemini-1.5-pro-latest"),
   ("flash", "gemini-1.5-flash-latest"),
   ("vision", "gemini-1.5-pro-latest")]

/-- `GEMINI_MODELS[model]`: raises `KeyError` when the key is absent. -/
def geminiModelItem (model : String) : Except String String :=
  match GEMINI_MODELS.lookup model with
  | some v => .ok v
  | none => .error ("KeyError: " ++ model)

/-- The observable shape of a `GeminiAPI` method's returned dict:
whether `success` is true, the optional `error` field, and whether the
`timestamp` field (always `datetime.utcnow().isoformat()`) is present. -/
structure GatewayEnvelope where
  success : Bool
  error : Option String
  timestamp : Bool
  deriving Repr, DecidableEq

/-- What a `GeminiAPI` method call produces for its caller:
a JSON-dict envelope, a bare (non-envelope) Python value, or a propagated
exception. -/
inductive MethodResult where
  | env (e : GatewayEnvelope)
  | raw
  | exc (msg : String)
  deriving Repr, DecidableEq

/-- The `try: ... except Exception as e: return {"success": False,
"error": str(e), "timestamp": ...}` wrapper shared by the calling methods. -/
def try_except (body : Except String GatewayEnvelope) : MethodResult :=
  match body with
  | .ok e => .env e
  | .error msg => .env ⟨false, some msg, true⟩

/-- The success dict every calling method builds: `"success": True`, the
method-specific payload fields (abstracted away), and `"timestamp"`. -/
def successEnvelope : GatewayEnvelope := ⟨true, none, true⟩

/-- `GeminiAPI.analyze_text`: generate, then build the success dict (whose
`model_used` entry indexes `GEMINI_MODELS[model]`, raising `KeyError` for
an unregistered model name — also caught by the blanket handler). -/
def GeminiAPI.analyze_text (remote : Except String String) (model : String) :
    MethodResult :=
  try_except (do
    let _responseText ← remote
    let _modelUsed ← geminiModelItem model
    pure successEnvelope)

/-- A chat-history record: role and content. -/
structure ChatMsg where
  role : String
  content : String
  deriving Repr, DecidableEq

/-- `GeminiAPI.chat`: optionally clear the history, send the message, append
the user and model turns, and build the success dict (`model_used` again
indexes `GEMINI_MODELS[model]`).  Returns the method result together with
the history left in `self.chat_history` (the clear survives a failed send). -/
def GeminiAPI.chat (remote : Except String String) (history : List ChatMsg)
    (message : String) (model : String) (clearHistory : Bool) :
    MethodResult × List ChatMsg :=
  let history0 := if clearHistory then [] else history
  match remote with
  | .error msg => (.env ⟨false, some msg, true⟩, history0)
  | .ok responseText =>
    let history1 := history0 ++ [⟨"user", message⟩, ⟨"model", responseText⟩]
    match geminiModelItem model with
    | .error msg => (.env ⟨false, some msg, true⟩, history1)
    | .ok _ => (.env successEnvelope, history1)

/-- `GeminiAPI.get_chat_history`: `return self.chat_history` — a bare list,
not an envelope (no `success` field, no `timestamp`), and the method body
cannot raise. -/
def GeminiAPI.get_chat_history (_history : List ChatMsg) : MethodResult := .raw

/-- `GeminiAPI.clear_chat_history`: resets the history and returns
`{"success": True, "messages_cleared": ..., "timestamp": ...}`;
nothing in the body can raise. -/
def GeminiAPI.clear_chat_history (_history : List ChatMsg) :
    MethodResult × List ChatMsg :=
  (.env successEnvelope, [])

/-- `GeminiAPI.analyze_image`: for `"base64"` input decode it first
(`b64` outcome), open with PIL (`pil` outcome), generate, succeed. -/
def GeminiAPI.analyze_image (b64 : Except String Unit) (pil : Except String Unit)
    (remote : Except String String) (imageFormat : String) : MethodResult :=
  try_except (do
    if imageFormat = "base64" then
      let _ ← b64
    let _ ← pil
    let _responseText ← remote
    pure successEnvelope)

/-- `GeminiAPI.compare_images`: open both images with PIL, generate,
succeed. -/
def GeminiAPI.compare_images (pil1 pil2 : Except String Unit)
    (remote : Except String String) : MethodResult :=
  try_except (do
    let _ ← pil1
    let _ ← pil2
    let _responseText ← remote
    pure successEnvelope)

/-- `GeminiAPI.analyze_document`: pick the prompt template
(`prompts.get(analysis_type, prompts["summary"])` — total), generate,
succeed. -/
def GeminiAPI.analyze_document (remote : Except String String)
    (_analysisType : String) : MethodResult :=
  try_except (do
    let _responseText ← remote
    pure successEnvelope)

/-- `GeminiAPI.extract_structured_data`: build the schema prompt, generate,
then best-effort-parse the reply as JSON inside an inner
`try/except json.JSONDecodeError` whose fallback keeps the raw text —
either way the outer dict is a success envelope. -/
def GeminiAPI.extract_structured_data (remote : Except String String)
    (_schema : List (String × String)) (_replyParsesAsJson : Bool) :
    MethodResult :=
  try_except (do
    let _responseText ← remote
    pure successEnvelope)

/-- `GeminiAPI.analyze_sentiment`: build the (detailed or short) prompt,
generate, succeed. -/
def GeminiAPI.analyze_sentiment (remote : Except String String)
    (_detailed : Bool) : MethodResult :=
  try_except (do
    let _responseText ← remote
    pure successEnvelope)

/-- The `for text in texts: genai.embed_content(...)` loop: the first
raising call aborts the loop (and lands in the blanket handler). -/
def embedLoop (embed : String → Except String Unit) :
    List String → Except String Unit
  | [] => .ok ()
  | t :: ts => do
    let _ ← embed t
    embedLoop embed ts

/-- `GeminiAPI.generate_embeddings`: one remote embedding call per text,
succeed when all do. -/
def GeminiAPI.generate_embeddings (embed : String → Except String Unit)
    (texts : List String) : MethodResult :=
  try_except (do
    let _ ← embedLoop embed texts
    pure successEnvelope)

/-- `GeminiAPI.translate_text`: build the prompt (auto or explicit source
language), generate, succeed. -/
def GeminiAPI.translate_text (remote : Except String String)
    (_sourceLanguage _targetLanguage : String) : MethodResult :=
  try_except (do
    let _responseText ← remote
    pure successEnvelope)

/-- `GeminiAPI.summarize_text`: pick length/format instructions
(`dict.get` with default — total), generate, succeed. -/
def GeminiAPI.summarize_text (remote : Except String String)
    (_summaryLength : String) (_bulletPoints : Bool) : MethodResult :=
  try_except (do
    let _responseText ← remote
    pure successEnvelope)

/-- `GeminiAPI.generate_creative_content`: build the typed prompt
(`dict.get` with default), construct a per-call model, generate, succeed. -/
def GeminiAPI.generate_creative_content (remote : Except String String)
    (_contentType : String) : MethodResult :=
  try_except (do
    let _responseText ← remote
    pure successEnvelope)

/-- `GeminiAPI.check_grammar`: build the prompt, generate, succeed. -/
def GeminiAPI.check_grammar (remote : Except String String)
    (_language : String) : MethodResult :=
  try_except (do
    let _responseText ← remote
    pure successEnvelope)

/-- `GeminiAPI.analyze_tabular_data`: build the prompt, generate, succeed. -/
def GeminiAPI.analyze_tabular_data (remote : Except String String)
    (_analysisRequest : String) : MethodResult :=
  try_except (do
    let _responseText ← remote
    pure successEnvelope)

/-- A method result is a uniform in-band envelope: it is a dict (neither a
bare value nor a propagated exception), it carries a timestamp, and when it
is not a success it carries an `error` field. -/
def uniformEnvelope : MethodResult → Bool
  | .env e => e.timestamp && (e.success || e.error.isSome)
  | _ => false

/-! ### AI routes (`ai_routes.py`) -/

/-- The module-level client: `GeminiAPI()` raises `ValueError` when no API
key is supplied and `GOOGLE_API_KEY` is absent, in which case the module
sets `gemini_client = None`. -/
structure GeminiClient where
  api_key : String
  deriving Repr, DecidableEq

/-- The `gemini_client` module global as a function of the credential's
presence at process start. -/
def gemini_client_of (googleApiKey : Option String) : Option GeminiClient :=
  match googleApiKey with
  | some k => some ⟨k⟩
  | none => none

/-- What an `/ai/*` route handler produces: an `HTTPException` response, a
200 JSON response (`usesClient` records whether the handler went on to
invoke the Gemini client at all), or a propagated exception. -/
inductive AiOutcome where
  | http (statusCode : Nat) (detail : String)
  | envelope (usesClient : Bool)
  | exc (msg : String)
  deriving Repr, DecidableEq

/-- `check_gemini_available` from `ai_routes.py`:
`if not gemini_client: raise HTTPException(503, ...)`. -/
def check_gemini_available (client : Option GeminiClient) :
    Except HTTPError Unit :=
  match client with
  | none => .error ⟨503, "Servicio de IA no disponible. Configure GOOGLE_API_KEY"⟩
  | some _ => .ok ()

/-- The guard-then-body shape shared by the fifteen handlers that begin
with `check_gemini_available()`. -/
def withGeminiCheck (client : Option GeminiClient) (body : AiOutcome) : AiOutcome :=
  match check_gemini_available client with
  | .error e => .http e.statusCode e.detail
  | .ok _ => body

/-- `POST /ai/analyze-text`. -/
def analyze_text_endpoint (client : Option GeminiClient) : AiOutcome :=
  withGeminiCheck client (.envelope true)

/-- `POST /ai/chat`. -/
def chat_endpoint (client : Option GeminiClient) : AiOutcome :=
  withGeminiCheck client (.envelope true)

/-- `GET /ai/chat/history`. -/
def get_chat_history_endpoint (client : Option GeminiClient) : AiOutcome :=
  withGeminiCheck client (.envelope true)

/-- `DELETE /ai/chat/history`. -/
def clear_chat_history_endpoint (client : Option GeminiClient) : AiOutcome :=
  withGeminiCheck client (.envelope true)

/-- `POST /ai/analyze-image`: after the availability guard, reject
non-image content types with a 400. -/
def analyze_image_endpoint (client : Option GeminiClient)
    (contentType : String) : AiOutcome :=
  withGeminiCheck client
    (if (contentType.startsWith "image/") = false then
      .http 400 "El archivo debe ser una imagen"
    else .envelope true)

/-- `POST /ai/compare-images`: both uploads must have image content types. -/
def compare_images_endpoint (client : Option GeminiClient)
    (contentType1 contentType2 : String) : AiOutcome :=
  withGeminiCheck client
    (if (contentType1.startsWith "image/") = false ||
        (contentType2.startsWith "image/") = false then
      .http 400 "Ambos archivos deben ser imágenes"
    else .envelope true)

/-- `POST /ai/analyze-document`: UTF-8 decode inside
`try/except UnicodeDecodeError`. -/
def analyze_document_endpoint (client : Option GeminiClient)
    (decoded : Option String) : AiOutcome :=
  withGeminiCheck client
    (match decoded with
    | none => .http 400 "No se pudo decodificar el archivo. Use codificación UTF-8"
    | some _ => .envelope true)

/-- `POST /ai/extract-structured-data`: parse the caller's schema JSON
(`schemaParsed`, `.error` = `json.JSONDecodeError`), then decode the file. -/
def extract_structured_data_endpoint (client : Option GeminiClient)
    (schemaParsed : Except Unit Unit) (decoded : Option String) : AiOutcome :=
  withGeminiCheck client
    (match schemaParsed with
    | .error _ => .http 400 "Schema inválido. Use formato JSON válido"
    | .ok _ =>
      match decoded with
      | none => .http 400 "No se pudo decodificar el archivo"
      | some _ => .envelope true)

/-- Python `str.endswith`. -/
def pyEndsWith (s suffixStr : String) : Bool :=
  suffixStr.data.isSuffixOf s.data

/-- `POST /ai/analyze-csv`: filename must end in `.csv`, then UTF-8
decode inside `try/except UnicodeDecodeError`. -/
def analyze_csv_endpoint (client : Option GeminiClient)
    (filename : String) (decoded : Option String) : AiOutcome :=
  withGeminiCheck client
    (if (pyEndsWith filename ".csv") = false then
      .http 400 "El archivo debe ser un CSV"
    else
      match decoded with
      | none => .http 400 "Error al leer el archivo CSV"
      | some _ => .envelope true)

/-- `POST /ai/sentiment`. -/
def analyze_sentiment_endpoint (client : Option GeminiClient) : AiOutcome :=
  withGeminiCheck client (.envelope true)

/-- `POST /ai/translate`. -/
def translate_endpoint (client : Option GeminiClient) : AiOutcome :=
  withGeminiCheck client (.envelope true)

/-- `POST /ai/summarize`. -/
def summarize_endpoint (client : Option GeminiClient) : AiOutcome :=
  withGeminiCheck client (.envelope true)

/-- `POST /ai/grammar-check`. -/
def grammar_check_endpoint (client : Option GeminiClient) : AiOutcome :=
  withGeminiCheck client (.envelope true)

/-- `POST /ai/generate-content`. -/
def generate_content_endpoint (client : Option GeminiClient) : AiOutcome :=
  withGeminiCheck client (.envelope true)

/-- `POST /ai/embeddings`. -/
def generate_embeddings_endpoint (client : Option GeminiClient) : AiOutcome :=
  withGeminiCheck client (.envelope true)

/-- `POST /ai/combined/image-analysis`: content-type guard, then PIL open
(whose failure is uncaught and would propagate). -/
def combined_image_analysis (client : Option GeminiClient)
    (contentType : String) (pil : Except String Unit) : AiOutcome :=
  withGeminiCheck client
    (if (contentType.startsWith "image/") = false then
      .http 400 "El archivo debe ser una imagen"
    else
      match pil with
      | .error msg => .exc msg
      | .ok _ => .envelope true)

/-- `POST /ai/combined/document-analysis`: UTF-8 decode inside
`try/except UnicodeDecodeError`. -/
def combined_document_analysis (client : Option GeminiClient)
    (decoded : Option String) : AiOutcome :=
  withGeminiCheck client
    (match decoded with
    | none => .http 400 "Error al decodificar el archivo"
    | some _ => .envelope true)

/-- `GET /ai/models` (`list_models` in `ai_routes.py`): returns
`{"success": True, "models": GEMINI_MODELS, "timestamp": ...}` without
consulting `gemini_client` at all. -/
def list_models (_client : Option GeminiClient) : AiOutcome :=
  .envelope false

/-- `GET /ai/status` (`gemini_status`): returns
`{"success": True, "gemini_available": gemini_client is not None, ...}` —
a 200 response whether or not the client exists. -/
def gemini_status (_client : Option GeminiClient) : AiOutcome :=
  .envelope false

/-! ### Helper lemmas -/

/-- The batch loop's `results.append(...)` accumulation is a `map`:
appending one result per file, in order, starting from `acc`. -/
theorem foldl_append_singleton_eq_map {α β : Type} (g : α → β) :
    ∀ (l : List α) (acc : List β),
      l.foldl (fun results f => results ++ [g f]) acc = acc ++ l.map g := by
  intro l
  induction l with
  | nil => intro acc; simp
  | cons x xs ih => intro acc; simp [ih, List.append_assoc]

mutual

/-- `count_elements` equals the length of the strict pre-order node
listing. -/
theorem count_elements_eq_preorder_length :
    (e : XmlElem) → count_elements e = (preorderNodes e).length
  | .mk t a cs => by
    rw [count_elements, preorderNodes]
    simp [count_elements_children_eq_preorder_length cs]
    omega

/-- Forest version of `count_elements_eq_preorder_length`. -/
theorem count_elements_children_eq_preorder_length :
    (cs : List XmlElem) → count_elements_children cs = (preorderForest cs).length
  | [] => by rw [count_elements_children, preorderForest]; rfl
  | c :: cs => by
    rw [count_elements_children, preorderForest]
    simp [count_elements_eq_preorder_length c,
      count_elements_children_eq_preorder_length cs]

end

/-! ### Claims -/

/-- C1: For the single-file upload endpoints, a filename whose extension is
not in the category's accepted set is claimed to be rejected as HTTP 400 and
an oversized payload as HTTP 413.  The code disagrees: the endpoint raises
`HTTPException(400/413)` inside its own `try`, whose blanket
`except Exception` catches it (FastAPI's `HTTPException` derives from
`Exception`) and re-raises it as HTTP 500 wrapping `str(e)`.  Shown here on
`/files/upload/video`: a concrete bad-extension upload, every bad-extension
upload regardless of content, and every oversized upload all answer 500. -/
theorem uploadVideo_validation_errors_become_500 :
    upload_video "clip.txt" none [] =
      .error ⟨500,
        "Error al procesar video: 400: Formato no permitido. Use: .mp4, .avi, .mov, .mkv"⟩ ∧
    (∀ (filename : String) (contentType : Option String) (contents : Bytes),
      validate_file_extension filename "video" = false →
      upload_video filename contentType contents =
        .error ⟨500,
          "Error al procesar video: 400: Formato no permitido. Use: .mp4, .avi, .mov, .mkv"⟩) ∧
    (∀ (filename : String) (contentType : Option String) (contents : Bytes),
      validate_file_extension filename "video" = true →
      validate_file_size contents "video" = false →
      upload_video filename contentType contents =
        .error ⟨500,
          "Error al procesar video: 413: Archivo demasiado grande. Máximo: 100.0MB"⟩) := by
  refine ⟨rfl, ?_, ?_⟩
  · intro filename contentType contents h
    simp [upload_video, pyTry, h, pyStr]
    rfl
  · intro filename contentType contents h1 h2
    simp [upload_video, pyTry, h1, h2, pyStr]
    rfl

/-- C1 witness: both general parts of the theorem applied at concrete
inputs (a `.doc` filename for the extension gate; a 100 MiB + 1 payload of
zero bytes for the size gate). -/
theorem uploadVideo_validation_errors_become_500_witness :
    upload_video "w.doc" none [1, 2] =
      .error ⟨500,
        "Error al procesar video: 400: Formato no permitido. Use: .mp4, .avi, .mov, .mkv"⟩ ∧
    upload_video "w.mp4" none (List.replicate (100 * 1024 * 1024 + 1) 0) =
      .error ⟨500,
        "Error al procesar video: 413: Archivo demasiado grande. Máximo: 100.0MB"⟩ :=
  ⟨uploadVideo_validation_errors_become_500.2.1 "w.doc" none [1, 2] (by decide),
   uploadVideo_validation_errors_become_500.2.2 "w.mp4" none
     (List.replicate (100 * 1024 * 1024 + 1) 0) (by decide)
     (by unfold validate_file_size; rw [List.length_replicate]; decide)⟩

/-- C10: `validate_file_size` is total over arbitrary category strings;
for any category key absent from `MAX_FILE_SIZE` it accepts a payload
exactly when its length is at most the silent 5 MB default cap. -/
theorem validateFileSize_default_cap :
    ∀ (fileContent : Bytes) (fileType : String),
      MAX_FILE_SIZE.lookup fileType = none →
      (validate_file_size fileContent fileType = true ↔
        fileContent.length ≤ 5 * 1024 * 1024) := by
  intro fileContent fileType h
  simp [validate_file_size, h]

/-- C10 witness: the unregistered category string "texto" with an empty
payload falls under the default cap and is accepted. -/
theorem validateFileSize_default_cap_witness :
    validate_file_size [] "texto" = true :=
  (validateFileSize_default_cap [] "texto" (by decide)).mpr (by decide)

/-- C2 counterexample: with the credential absent at process start
(`gemini_client = None`), the `/ai/models` and `/ai/status` routes answer
200 success envelopes — not the 503 the claim asserts for every `/ai/*`
route.  (They never consult the client, so no network call occurs either.) -/
theorem aiInfoRoutes_respond_200_without_credential :
    list_models (gemini_client_of none) = .envelope false ∧
    list_models (gemini_client_of none) ≠
      .http 503 "Servicio de IA no disponible. Configure GOOGLE_API_KEY" ∧
    gemini_status (gemini_client_of none) = .envelope false ∧
    gemini_status (gemini_client_of none) ≠
      .http 503 "Servicio de IA no disponible. Configure GOOGLE_API_KEY" := by
  refine ⟨rfl, ?_, rfl, ?_⟩ <;> decide

/-- C2 amended: with the credential absent at process start, every `/ai/*`
route that invokes the Gemini client — all seventeen except the two
informational routes `GET /ai/models` and `GET /ai/status` — fails fast
with the 503 service-unavailable response before any gateway work, so no
network call to the generative API is attempted; the two informational
routes answer 200 without touching the client. -/
theorem aiRoutes_guarded_503_without_credential :
    (analyze_text_endpoint (gemini_client_of none) =
      .http 503 "Servicio de IA no disponible. Configure GOOGLE_API_KEY") ∧
    (chat_endpoint (gemini_client_of none) =
      .http 503 "Servicio de IA no disponible. Configure GOOGLE_API_KEY") ∧
    (get_chat_history_endpoint (gemini_client_of none) =
      .http 503 "Servicio de IA no disponible. Configure GOOGLE_API_KEY") ∧
    (clear_chat_history_endpoint (gemini_client_of none) =
      .http 503 "Servicio de IA no disponible. Configure GOOGLE_API_KEY") ∧
    (∀ contentType, analyze_image_endpoint (gemini_client_of none) contentType =
      .http 503 "Servicio de IA no disponible. Configure GOOGLE_API_KEY") ∧
    (∀ ct1 ct2, compare_images_endpoint (gemini_client_of none) ct1 ct2 =
      .http 503 "Servicio de IA no disponible. Configure GOOGLE_API_KEY") ∧
    (∀ decoded, analyze_document_endpoint (gemini_client_of none) decoded =
      .http 503 "Servicio de IA no disponible. Configure GOOGLE_API_KEY") ∧
    (∀ schemaParsed decoded,
      extract_structured_data_endpoint (gemini_client_of none) schemaParsed decoded =
      .http 503 "Servicio de IA no disponible. Configure GOOGLE_API_KEY") ∧
    (∀ filename decoded, analyze_csv_endpoint (gemini_client_of none) filename decoded =
      .http 503 "Servicio de IA no disponible. Configure GOOGLE_API_KEY") ∧
    (analyze_sentiment_endpoint (gemini_client_of none) =
      .http 503 "Servicio de IA no disponible. Configure GOOGLE_API_KEY") ∧
    (translate_endpoint (gemini_client_of none) =
      .http 503 "Servicio de IA no disponible. Configure GOOGLE_API_KEY") ∧
    (summarize_endpoint (gemini_client_of none) =
      .http 503 "Servicio de IA no disponible. Configure GOOGLE_API_KEY") ∧
    (grammar_check_endpoint (gemini_client_of none) =
      .http 503 "Servicio de IA no disponible. Configure GOOGLE_API_KEY") ∧
    (generate_content_endpoint (gemini_client_of none) =
      .http 503 "Servicio de IA no disponible. Configure GOOGLE_API_KEY") ∧
    (generate_embeddings_endpoint (gemini_client_of none) =
      .http 503 "Servicio de IA no disponible. Configure GOOGLE_API_KEY") ∧
    (∀ contentType pil, combined_image_analysis (gemini_client_of none) contentType pil =
      .http 503 "Servicio de IA no disponible. Configure GOOGLE_API_KEY") ∧
    (∀ decoded, combined_document_analysis (gemini_client_of none) decoded =
      .http 503 "Servicio de IA no disponible. Configure GOOGLE_API_KEY") ∧
    (list_models (gemini_client_of none) = .envelope false) ∧
    (gemini_status (gemini_client_of none) = .envelope false) := by
  refine ⟨rfl, rfl, rfl, rfl, fun _ => rfl, fun _ _ => rfl, fun _ => rfl,
    fun _ _ => rfl, fun _ _ => rfl, rfl, rfl, rfl, rfl, rfl, rfl,
    fun _ _ => rfl, fun _ => rfl, rfl, rfl⟩

/-- C3 counterexample: `GeminiAPI.get_chat_history` is a `GeminiAPI` method
whose (always successful) return value is the bare history list — not an
envelope: it has no `success` field and no `timestamp`. -/
theorem getChatHistory_returns_bare_list :
    GeminiAPI.get_chat_history [] = .raw ∧
    uniformEnvelope (GeminiAPI.get_chat_history []) = false := by
  exact ⟨rfl, rfl⟩

/-- C3 amended: every `GeminiAPI` method except the bare accessor
`get_chat_history` returns an in-band uniform envelope for every outcome of
its remote/library calls — a timestamped dict that either has
`success: true` or has `success: false` with an `error` field — and never
propagates an exception; moreover whenever the remote call raises with
message `msg`, the calling methods return exactly
`{success: false, error: msg, timestamp}`.  (`get_chat_history` returns the
raw history list, and its body cannot raise.) -/
theorem geminiMethods_return_uniform_envelope :
    (∀ remote model,
      uniformEnvelope (GeminiAPI.analyze_text remote model) = true) ∧
    (∀ msg model,
      GeminiAPI.analyze_text (.error msg) model = .env ⟨false, some msg, true⟩) ∧
    (∀ remote history message model clearHistory,
      uniformEnvelope
        (GeminiAPI.chat remote history message model clearHistory).1 = true) ∧
    (∀ msg history message model clearHistory,
      (GeminiAPI.chat (.error msg) history message model clearHistory).1 =
        .env ⟨false, some msg, true⟩) ∧
    (∀ history,
      uniformEnvelope (GeminiAPI.clear_chat_history history).1 = true) ∧
    (∀ b64 pil remote imageFormat,
      uniformEnvelope (GeminiAPI.analyze_image b64 pil remote imageFormat) = true) ∧
    (∀ pil1 pil2 remote,
      uniformEnvelope (GeminiAPI.compare_images pil1 pil2 remote) = true) ∧
    (∀ remote analysisType,
      uniformEnvelope (GeminiAPI.analyze_document remote analysisType) = true) ∧
    (∀ remote schema replyParses,
      uniformEnvelope
        (GeminiAPI.extract_structured_data remote schema replyParses) = true) ∧
    (∀ remote detailed,
      uniformEnvelope (GeminiAPI.analyze_sentiment remote detailed) = true) ∧
    (∀ embed texts,
      uniformEnvelope (GeminiAPI.generate_embeddings embed texts) = true) ∧
    (∀ remote srcLang tgtLang,
      uniformEnvelope (GeminiAPI.translate_text remote srcLang tgtLang) = true) ∧
    (∀ remote summaryLength bulletPoints,
      uniformEnvelope
        (GeminiAPI.summarize_text remote summaryLength bulletPoints) = true) ∧
    (∀ remote contentType,
      uniformEnvelope
        (GeminiAPI.generate_creative_content remote contentType) = true) ∧
    (∀ remote language,
      uniformEnvelope (GeminiAPI.check_grammar remote language) = true) ∧
    (∀ remote request,
      uniformEnvelope (GeminiAPI.analyze_tabular_data remote request) = true) ∧
    (∀ msg analysisType,
      GeminiAPI.analyze_document (.error msg) analysisType =
        .env ⟨false, some msg, true⟩) := by
  refine ⟨?_, ?_, ?_, ?_, ?_, ?_, ?_, ?_, ?_, ?_, ?_, ?_, ?_, ?_, ?_, ?_, ?_⟩
  · intro remote model
    cases remote with
    | error msg => rfl
    | ok t =>
      cases h : GEMINI_MODELS.lookup model <;>
        (simp only [GeminiAPI.analyze_text, geminiModelItem, h]; rfl)
  · intro msg model; rfl
  · intro remote history message model clearHistory
    cases remote with
    | error msg => rfl
    | ok t =>
      cases h : GEMINI_MODELS.lookup model <;>
        (simp only [GeminiAPI.chat, geminiModelItem, h]; rfl)
  · intro msg history message model clearHistory; rfl
  · intro history; rfl
  · intro b64 pil remote imageFormat
    unfold GeminiAPI.analyze_image
    by_cases hf : imageFormat = "base64"
    · rw [if_pos hf]
      cases b64 <;> cases pil <;> cases remote <;> rfl
    · rw [if_neg hf]
      cases pil <;> cases remote <;> rfl
  · intro pil1 pil2 remote
    cases pil1 <;> cases pil2 <;> cases remote <;> rfl
  · intro remote analysisType
    cases remote <;> rfl
  · intro remote schema replyParses
    cases remote <;> rfl
  · intro remote detailed
    cases remote <;> rfl
  · intro embed texts
    unfold GeminiAPI.generate_embeddings
    cases hE : embedLoop embed texts <;> simp only [bind, Except.bind] <;> rfl
  · intro remote srcLang tgtLang
    cases remote <;> rfl
  · intro remote summaryLength bulletPoints
    cases remote <;> rfl
  · intro remote contentType
    cases remote <;> rfl
  · intro remote language
    cases remote <;> rfl
  · intro remote request
    cases remote <;> rfl
  · intro msg analysisType; rfl

/-- C4 counterexample: for an archive entry with uncompressed size 100 and
compressed size 50 the endpoint reports a compression ratio of 50 (a
rounded percentage), not `1 - compressed/uncompressed = 1/2` as claimed. -/
theorem compressionRatio_not_plain_ratio :
    (zip_entry_out ⟨"a.txt", 100, 50⟩).compression_ratio = 50 ∧
    (1 : Rat) - (50 : Rat) / (100 : Rat) = 1 / 2 ∧
    (zip_entry_out ⟨"a.txt", 100, 50⟩).compression_ratio ≠
      (1 : Rat) - (50 : Rat) / (100 : Rat) := by
  refine ⟨?_, by norm_num, ?_⟩ <;>
    norm_num [zip_entry_out, pyRound2, halfEven]

/-- C4 amended: for every entry of a successfully opened ZIP archive
upload, the reported compression ratio equals the *percentage*
`round((1 - compressed/uncompressed) * 100, 2)` — equivalently
`round(100 * (uncompressed - compressed) / uncompressed, 2)` — and it is
exactly 0 when the entry's uncompressed size is 0 (no division by zero);
the endpoint's `files` array is exactly the per-entry descriptor of each
archive entry. -/
theorem compressionRatio_percentage_formula :
    (∀ i : ZipInfoEntry, i.file_size = 0 →
      (zip_entry_out i).compression_ratio = 0) ∧
    (∀ i : ZipInfoEntry, i.file_size ≠ 0 →
      (zip_entry_out i).compression_ratio =
        pyRound2 (100 * (((i.file_size : Rat) - (i.compress_size : Rat)) /
          (i.file_size : Rat)))) ∧
    (∀ (filename : String) (contents : Bytes) (entries : List ZipInfoEntry),
      validate_file_extension filename "zip" = true →
      validate_file_size contents "zip" = true →
      upload_zip filename contents (.ok entries) =
        .ok { filename := filename, total_files := entries.length,
              size_mb := sizeMb contents,
              files := entries.map zip_entry_out }) := by
  refine ⟨?_, ?_, ?_⟩
  · intro i h
    simp [zip_entry_out, h]
  · intro i h
    have hq : (i.file_size : Rat) ≠ 0 := Nat.cast_ne_zero.mpr h
    have harg : (1 - (i.compress_size : Rat) / (i.file_size : Rat)) * 100 =
        100 * (((i.file_size : Rat) - (i.compress_size : Rat)) /
          (i.file_size : Rat)) := by
      field_simp
      ring
    simp [zip_entry_out, Nat.pos_of_ne_zero h, harg]
  · intro filename contents entries h1 h2
    simp only [upload_zip, pyTry, h1, h2]
    simp [List.length_map]
    rfl

/-- C4 witness: the amended claim applied to a concrete upload whose
archive holds one zero-length entry (ratio exactly 0) and one compressed
entry (ratio 50, the rounded percentage). -/
theorem compressionRatio_percentage_formula_witness :
    upload_zip "a.zip" [1] (.ok [⟨"empty.txt", 0, 7⟩, ⟨"half.txt", 100, 50⟩]) =
      .ok { filename := "a.zip", total_files := 2, size_mb := sizeMb [1],
            files := [zip_entry_out ⟨"empty.txt", 0, 7⟩,
                      zip_entry_out ⟨"half.txt", 100, 50⟩] } ∧
    (zip_entry_out ⟨"empty.txt", 0, 7⟩).compression_ratio = 0 :=
  ⟨compressionRatio_percentage_formula.2.2 "a.zip" [1]
      [⟨"empty.txt", 0, 7⟩, ⟨"half.txt", 100, 50⟩] (by decide) (by decide),
   compressionRatio_percentage_formula.1 ⟨"empty.txt", 0, 7⟩ rfl⟩

/-- C5: the batch endpoint rejects any request with 11 or more files
wholesale (before any per-file processing, whatever the files hold); a
request with at most 10 files yields exactly one result per input file,
each produced independently from that file alone; a file whose extension
matches no registered category yields the per-item unsupported failure
without affecting any other item. -/
theorem batchUpload_cap_and_independence :
    (∀ files : List BatchFile, 10 < files.length →
      upload_multiple_files files =
        .error ⟨400, "Máximo 10 archivos por solicitud"⟩) ∧
    (∀ files : List BatchFile, files.length ≤ 10 →
      upload_multiple_files files = .ok (files.map process_batch_file) ∧
      (files.map process_batch_file).length = files.length) ∧
    (∀ f : BatchFile,
      ALLOWED_EXTENSIONS.find?
        (fun p => p.2.contains (pyLower (splitextExt f.filename))) = none →
      process_batch_file f = .failed f.filename "Tipo de archivo no soportado") := by
  refine ⟨?_, ?_, ?_⟩
  · intro files h
    simp [upload_multiple_files, h]
  · intro files h
    constructor
    · simp [upload_multiple_files, Nat.not_lt.mpr h,
        foldl_append_singleton_eq_map]
    · simp
  · intro f h
    simp only [process_batch_file]
    rw [h]

/-- C5 witness: a batch of 3 files whose second item has an unsupported
extension returns 3 results with only item 2 failed, and a batch of 11
files is rejected wholesale. -/
theorem batchUpload_cap_and_independence_witness :
    upload_multiple_files [⟨"a.jpg", []⟩, ⟨"b.xyz", []⟩, ⟨"c.pdf", []⟩] =
      .ok [.ok "a.jpg" "image" (sizeMb []),
           .failed "b.xyz" "Tipo de archivo no soportado",
           .ok "c.pdf" "pdf" (sizeMb [])] ∧
    upload_multiple_files (List.replicate 11 ⟨"a.jpg", []⟩) =
      .error ⟨400, "Máximo 10 archivos por solicitud"⟩ := by
  constructor
  · have h := (batchUpload_cap_and_independence.2.1
      [⟨"a.jpg", []⟩, ⟨"b.xyz", []⟩, ⟨"c.pdf", []⟩] (by decide)).1
    rw [h]
    rfl
  · exact batchUpload_cap_and_independence.1 (List.replicate 11 ⟨"a.jpg", []⟩)
      (by rw [List.length_replicate]; decide)

/-- C6: for every CSV upload passing the extension and size gates and
decoding as UTF-8, whose parsed rows are a header row followed by `R` data
rows, the endpoint reports `total_rows = R + 1`, a preview of exactly the
first `min R 5` data rows (`rows[1:6]`), and the preview — being a slice
that starts after index 0 — never includes the header row itself. -/
theorem csvUpload_row_total_and_preview :
    ∀ (csvReader : List String → List (List String)) (filename : String)
      (contents : Bytes) (text : String)
      (header : List String) (dataRows : List (List String)),
      validate_file_extension filename "csv" = true →
      validate_file_size contents "csv" = true →
      csvReader (pySplitlines text) = header :: dataRows →
      upload_csv csvReader filename contents (some text) =
        .ok { filename := filename, size_bytes := contents.length,
              size_mb := sizeMb contents,
              total_rows := dataRows.length + 1,
              total_columns := header.length, columns := header,
              preview_rows := dataRows.take 5 } ∧
      (dataRows.take 5).length = min dataRows.length 5 ∧
      ∀ r ∈ dataRows.take 5, r ∈ dataRows := by
  intro csvReader filename contents text header dataRows h1 h2 h3
  refine ⟨?_, by simp [List.length_take, Nat.min_comm], ?_⟩
  · unfold upload_csv pyTry
    rw [h1, h2]
    show Except.ok _ = _
    rw [h3]
    cases dataRows with
    | nil => rfl
    | cons r rs => simp
  · intro r hr
    exact List.mem_of_mem_take hr

/-- C6 witness: a concrete reader (one single-field row per line) on the
text `"h\nr1\nr2"` — header plus two data rows — reports total 3, two
preview rows, and no header in the preview. -/
theorem csvUpload_row_total_and_preview_witness :
    upload_csv (fun ls => ls.map (fun l => [l])) "d.csv" [] (some "h\nr1\nr2") =
      .ok { filename := "d.csv", size_bytes := 0, size_mb := sizeMb [],
            total_rows := 3, total_columns := 1, columns := ["h"],
            preview_rows := [["r1"], ["r2"]] } :=
  (csvUpload_row_total_and_preview (fun ls => ls.map (fun l => [l])) "d.csv"
    [] "h\nr1\nr2" ["h"] [["r1"], ["r2"]]
    (by decide) (by decide) (by decide)).1

/-- C7: for every well-formed XML upload, the reported `total_elements`
equals the number of descendant nodes plus one — it is the length of the
strict pre-order node listing, which enumerates every node position of the
tree exactly once, root included — and the reported root attribute mapping
is exactly the root element's attribute mapping from the parsed document
(likewise the root tag). -/
theorem xmlUpload_element_count_and_attributes :
    (∀ root : XmlElem, count_elements root = descendantCount root + 1) ∧
    (∀ root : XmlElem, count_elements root = (preorderNodes root).length) ∧
    (∀ (filename : String) (contents : Bytes) (text : String)
      (root : XmlElem),
      validate_file_extension filename "xml" = true →
      validate_file_size contents "xml" = true →
      upload_xml filename contents (some text) (.ok root) =
        .ok { filename := filename, size_bytes := contents.length,
              size_mb := sizeMb contents, root_tag := root.tag,
              total_elements := count_elements root,
              root_attributes := root.attrib, is_valid := true }) := by
  refine ⟨?_, count_elements_eq_preorder_length, ?_⟩
  · intro root
    cases root with
    | mk t a cs =>
      rw [count_elements, descendantCount]
      simp [XmlElem.children, count_elements_children_eq_preorder_length cs]
      omega
  · intro filename contents text root h1 h2
    unfold upload_xml pyTry
    rw [h1, h2]
    rfl

/-- C7 witness: the endpoint applied to a two-node document
`<r k="v"><c/></r>`: total elements 2 (= 1 descendant + 1) and the root
attributes returned exactly. -/
theorem xmlUpload_element_count_and_attributes_witness :
    upload_xml "d.xml" [] (some "x")
      (.ok (.mk "r" [("k", "v")] [.mk "c" [] []])) =
      .ok { filename := "d.xml", size_bytes := 0, size_mb := sizeMb [],
            root_tag := "r",
            total_elements := count_elements (.mk "r" [("k", "v")] [.mk "c" [] []]),
            root_attributes := [("k", "v")], is_valid := true } :=
  xmlUpload_element_count_and_attributes.2.2
    "d.xml" [] "x" (.mk "r" [("k", "v")] [.mk "c" [] []])
    (by decide) (by decide)

/-- C8: for every JSON upload that parses, a dict top level is reported
with exactly the mapping's keys (in order) and their number, a list top
level with exactly its element count; in particular `{"a":1,"b":2}` reports
keys `["a","b"]` and count 2, and `[1,2,3]` reports length 3.  The
endpoint's descriptor carries exactly these fields. -/
theorem jsonUpload_key_and_length_reporting :
    (∀ entries : List (String × PyJson),
      json_type_fields (.obj entries) =
        (some (entries.map Prod.fst), some entries.length, none)) ∧
    (∀ elems : List PyJson,
      json_type_fields (.arr elems) = (none, none, some elems.length)) ∧
    (json_type_fields (.obj [("a", .num 1), ("b", .num 2)]) =
      (some ["a", "b"], some 2, none)) ∧
    (json_type_fields (.arr [.num 1, .num 2, .num 3]) =
      (none, none, some 3)) ∧
    (∀ (filename : String) (contents : Bytes) (text : String) (j : PyJson),
      validate_file_extension filename "json" = true →
      validate_file_size contents "json" = true →
      upload_json filename contents (some text) (.ok j) =
        .ok { filename := filename, size_bytes := contents.length,
              size_mb := sizeMb contents, data_type := pyTypeName j,
              is_valid := true, keys := (json_type_fields j).1,
              key_count := (json_type_fields j).2.1,
              array_length := (json_type_fields j).2.2 }) := by
  refine ⟨?_, ?_, rfl, rfl, ?_⟩
  · intro entries
    simp [json_type_fields]
  · intro elems
    simp [json_type_fields]
  · intro filename contents text j h1 h2
    unfold upload_json pyTry
    rw [h1, h2]
    rfl

/-- C8 witness: the endpoint applied to the parsed document
`{"a":1,"b":2}` reports keys `["a","b"]` and key count 2. -/
theorem jsonUpload_key_and_length_reporting_witness :
    upload_json "d.json" [] (some "x")
      (.ok (.obj [("a", .num 1), ("b", .num 2)])) =
      .ok { filename := "d.json", size_bytes := 0, size_mb := sizeMb [],
            data_type := "dict", is_valid := true,
            keys := some ["a", "b"], key_count := some 2,
            array_length := none } :=
  jsonUpload_key_and_length_reporting.2.2.2.2
    "d.json" [] "x" (.obj [("a", .num 1), ("b", .num 2)])
    (by decide) (by decide)

/-- C9: for every PDF upload passing the extension and size gates, a
payload whose first 4 bytes are the literal `%PDF` signature is reported
valid (`is_valid: true`) whatever the remaining bytes are, and a payload
not beginning with that signature is rejected with the invalid-format
error (`"El archivo no es un PDF válido"`, surfaced through the blanket
exception handler's 500 wrapper — see C1). -/
theorem pdfUpload_signature_shallow_check :
    (∀ (filename : String) (rest : Bytes),
      validate_file_extension filename "pdf" = true →
      validate_file_size (pdfSignature ++ rest) "pdf" = true →
      upload_pdf filename (pdfSignature ++ rest) =
        .ok { filename := filename,
              size_bytes := (pdfSignature ++ rest).length,
              size_mb := sizeMb (pdfSignature ++ rest), is_valid := true }) ∧
    (∀ (filename : String) (contents : Bytes),
      validate_file_extension filename "pdf" = true →
      validate_file_size contents "pdf" = true →
      pdfSignature.isPrefixOf contents = false →
      upload_pdf filename contents =
        .error ⟨500, "Error al procesar PDF: 400: El archivo no es un PDF válido"⟩) := by
  constructor
  · intro filename rest h1 h2
    have hsig : pdfSignature.isPrefixOf (pdfSignature ++ rest) = true := by
      simp [List.isPrefixOf_iff_prefix]
    simp only [upload_pdf, pyTry, h1, h2, hsig]
    rfl
  · intro filename contents h1 h2 h3
    simp only [upload_pdf, pyTry, h1, h2, h3]
    rfl

/-- C9 witness: `%PDF` followed by an arbitrary byte is accepted as valid;
a 2-byte garbage payload is rejected with the invalid-format error. -/
theorem pdfUpload_signature_shallow_check_witness :
    upload_pdf "doc.pdf" (pdfSignature ++ [255]) =
      .ok { filename := "doc.pdf", size_bytes := (pdfSignature ++ [255]).length,
            size_mb := sizeMb (pdfSignature ++ [255]), is_valid := true } ∧
    upload_pdf "doc.pdf" [0, 1] =
      .error ⟨500, "Error al procesar PDF: 400: El archivo no es un PDF válido"⟩ :=
  ⟨pdfUpload_signature_shallow_check.1 "doc.pdf" [255] (by decide) (by decide),
   pdfUpload_signature_shallow_check.2 "doc.pdf" [0, 1]
     (by decide) (by decide) (by decide)⟩

end FastApiBase
